import Mathlib

/-!
Shallow embedding of the escrow program (src/src/state.rs, src/src/intruction.rs,
src/src/error.rs, src/src/processor.rs).  Bytes are modelled as `Nat` values
below 256, byte buffers as `List Nat`, 32-byte public keys as length-32 byte
lists, and u64 values as `Nat` values below 2 ^ 64.
-/

/-- Errors surfaced by the program.  Mirrors the `solana_program::program_error::ProgramError`
variants actually reachable from this code base; `Custom` carries an `EscrowError`
discriminant cast to an integer code. -/
inductive ProgramError where
  | MissingRequiredSignature
  | IncorrectProgramId
  | InvalidAccountData
  | AccountAlreadyInitialized
  | NotEnoughAccountKeys
  | Custom (code : Nat)
deriving DecidableEq

/-- Custom error enumeration from src/src/error.rs. -/
inductive EscrowError where
  | InvalidInstruction
  | NotRentExcept
deriving DecidableEq

/-- Numeric code of an `EscrowError`, as produced by `e as u32` in the
`From<EscrowError> for ProgramError` impl. -/
def EscrowError.toCode : EscrowError → Nat
  | .InvalidInstruction => 0
  | .NotRentExcept => 1

/-- The `From<EscrowError> for ProgramError` conversion: `ProgramError::Custom(e as u32)`. -/
def EscrowError.toProgramError (e : EscrowError) : ProgramError :=
  .Custom e.toCode

/-- Decidable equality for `Except`, needed to evaluate concrete results. -/
instance {ε α : Type} [DecidableEq ε] [DecidableEq α] : DecidableEq (Except ε α) := fun a b =>
  match a, b with
  | .ok x, .ok y =>
    if h : x = y then .isTrue (by rw [h]) else .isFalse (by intro hc; cases hc; exact h rfl)
  | .ok _, .error _ => .isFalse (by intro hc; cases hc)
  | .error _, .ok _ => .isFalse (by intro hc; cases hc)
  | .error x, .error y =>
    if h : x = y then .isTrue (by rw [h]) else .isFalse (by intro hc; cases hc; exact h rfl)

/-- Little-endian interpretation of a byte list, as done by `u64::from_le_bytes`
on an 8-byte array. -/
def u64_from_le_bytes (bs : List Nat) : Nat :=
  bs.foldr (fun b acc => b + 256 * acc) 0

/-- The 8 little-endian bytes of a u64 value, as produced by `u64::to_le_bytes`. -/
def u64_to_le_bytes (n : Nat) : List Nat :=
  [n % 256, n / 256 % 256, n / 65536 % 256, n / 16777216 % 256,
   n / 4294967296 % 256, n / 1099511627776 % 256,
   n / 281474976710656 % 256, n / 72057594037927936 % 256]

/-- The persistent escrow record from src/src/state.rs. -/
structure Escrow where
  is_initialized : Bool
  initializer_pubkey : List Nat
  x_token_account_pubkey : List Nat
  initializer_token_to_receive_account_pubkey : List Nat
  expected_amount : Nat
deriving DecidableEq

/-- `Escrow::LEN`: 1 (bool) + 3 * 32 (Pubkey) + 8 (u64) = 105. -/
def Escrow.LEN : Nat := 105

/-- The 105 bytes produced by `pack_into_slice` at offsets 0, 1, 33, 65, 97:
discriminant byte, then the three 32-byte keys, then the amount little-endian. -/
def Escrow.packBytes (e : Escrow) : List Nat :=
  [if e.is_initialized then 1 else 0] ++ e.initializer_pubkey ++
    e.x_token_account_pubkey ++ e.initializer_token_to_receive_account_pubkey ++
    u64_to_le_bytes e.expected_amount

/-- `Escrow::pack_into_slice`: overwrite the first `LEN` bytes of `dst` with the
encoded record, leaving the rest of `dst` untouched. -/
def Escrow.pack_into_slice (e : Escrow) (dst : List Nat) : List Nat :=
  e.packBytes ++ dst.drop Escrow.LEN

/-- Field extraction used by `unpack_from_slice` once the discriminant byte has
been validated: `array_refs![src, 1, 32, 32, 32, 8]`. -/
def Escrow.decodeFields (src : List Nat) (b : Bool) : Escrow :=
  { is_initialized := b
    initializer_pubkey := (src.drop 1).take 32
    x_token_account_pubkey := (src.drop 33).take 32
    initializer_token_to_receive_account_pubkey := (src.drop 65).take 32
    expected_amount := u64_from_le_bytes ((src.drop 97).take 8) }

/-- `Escrow::unpack_from_slice`: the one-byte discriminant must be `[0]` or `[1]`;
any other value is `ProgramError::InvalidAccountData`. -/
def Escrow.unpack_from_slice (src : List Nat) : Except ProgramError Escrow :=
  if src.take 1 = [0] then .ok (Escrow.decodeFields src false)
  else if src.take 1 = [1] then .ok (Escrow.decodeFields src true)
  else .error ProgramError.InvalidAccountData

/-- `Pack::unpack_unchecked` (solana_program): length must be exactly `LEN`,
then delegate to `unpack_from_slice`; no initialization check. -/
def Escrow.unpack_unchecked (input : List Nat) : Except ProgramError Escrow :=
  if input.length = Escrow.LEN then Escrow.unpack_from_slice input
  else .error ProgramError.InvalidAccountData

/-- `Pack::pack` (solana_program): length must be exactly `LEN`, then delegate
to `pack_into_slice`; returns the updated buffer. -/
def Escrow.pack (src : Escrow) (dst : List Nat) : Except ProgramError (List Nat) :=
  if dst.length = Escrow.LEN then .ok (src.pack_into_slice dst)
  else .error ProgramError.InvalidAccountData

/-- The instruction enumeration from src/src/intruction.rs. -/
inductive EscrowInstruction where
  | InitEscrow (amount : Nat)
deriving DecidableEq

/-- `EscrowInstruction::unpack_amount`: read bytes `..8` of the input as a
little-endian u64; fewer than 8 bytes is `InvalidInstruction`. -/
def EscrowInstruction.unpack_amount (input : List Nat) : Except ProgramError Nat :=
  if 8 ≤ input.length then .ok (u64_from_le_bytes (input.take 8))
  else .error EscrowError.InvalidInstruction.toProgramError

/-- `EscrowInstruction::unpack`: split the tag byte; tag 0 decodes the amount,
an empty buffer or any other tag is `InvalidInstruction`. -/
def EscrowInstruction.unpack (input : List Nat) : Except ProgramError EscrowInstruction :=
  match input with
  | [] => .error EscrowError.InvalidInstruction.toProgramError
  | tag :: rest =>
    if tag = 0 then
      match EscrowInstruction.unpack_amount rest with
      | .ok amount => .ok (.InitEscrow amount)
      | .error e => .error e
    else .error EscrowError.InvalidInstruction.toProgramError

/-- An account handle as seen by the processor: key, signer flag, declared
owner, balance, and backing data (the fields of `AccountInfo` this program reads). -/
structure AccountInfo where
  key : List Nat
  is_signer : Bool
  owner : List Nat
  lamports : Nat
  data : List Nat
deriving DecidableEq

/-- `spl_token::instruction::AuthorityType`; only `AccountOwner` is used here. -/
inductive AuthorityType where
  | AccountOwner
deriving DecidableEq

/-- The fields of the `set_authority` instruction built in `process_init_escrow`;
this is the authority-delegation request handed to the token program. -/
structure SetAuthorityIx where
  token_program_id : List Nat
  owned_pubkey : List Nat
  new_authority_pubkey : Option (List Nat)
  authority_type : AuthorityType
  owner_pubkey : List Nat
  signer_pubkeys : List (List Nat)
deriving DecidableEq

/-- `spl_token::instruction::set_authority` (spl-token 3.1.1, per the comment at
the end of src/src/processor.rs): the builder first checks that the supplied
program id is the token program's own id, then assembles the instruction. -/
def set_authority (spl_token_id : List Nat) (token_program_id : List Nat)
    (owned_pubkey : List Nat) (new_authority_pubkey : Option (List Nat))
    (authority_type : AuthorityType) (owner_pubkey : List Nat)
    (signer_pubkeys : List (List Nat)) : Except ProgramError SetAuthorityIx :=
  if token_program_id = spl_token_id then
    .ok { token_program_id := token_program_id
          owned_pubkey := owned_pubkey
          new_authority_pubkey := new_authority_pubkey
          authority_type := authority_type
          owner_pubkey := owner_pubkey
          signer_pubkeys := signer_pubkeys }
  else .error ProgramError.IncorrectProgramId

/-- The byte string of the constant seed `b"escrow"` used to derive the PDA. -/
def ESCROW_SEED : List Nat := [101, 115, 99, 114, 111, 119]

/-- The external runtime environment the handler runs against: the token
program's well-known identity (`spl_token::id()`), the rent-exemption oracle
decoded from the rent sysvar account (`Rent::is_exempt`, given lamports and
data length), the deterministic address derivation
(`Pubkey::find_program_address`, giving address and bump seed), and the
outcome of the cross-program `invoke` (`none` means the callee succeeded). -/
structure Sys where
  spl_token_id : List Nat
  rent_is_exempt : Nat → Nat → Bool
  find_program_address : List (List Nat) → List Nat → List Nat × Nat
  invoke_result : Option ProgramError

/-- Observable outcome of one `process_init_escrow` run: the returned result,
the bytes written to the escrow account's data by the handler (`none` when the
handler never reached the write), and the delegation requests invoked. -/
structure InitOutcome where
  result : Except ProgramError Unit
  written : Option (List Nat)
  delegations : List SetAuthorityIx
deriving DecidableEq

/-- `Processor::process_init_escrow` from src/src/processor.rs, step for step:
take the accounts in order (initializer, x-token account, token-to-receive
account, escrow account, rent sysvar, token program), check the signer flag,
check the token-to-receive account's owner against the token program id, check
rent exemption of the escrow account, decode the escrow record and reject an
initialized one, fill and pack the record, derive the PDA from the constant
seed, build the `set_authority` instruction and invoke it. -/
def Processor.process_init_escrow (sys : Sys) (accounts : List AccountInfo)
    (amount : Nat) (program_id : List Nat) : InitOutcome :=
  match accounts[0]? with
  | none => { result := .error .NotEnoughAccountKeys, written := none, delegations := [] }
  | some initializer =>
    if !initializer.is_signer then
      { result := .error .MissingRequiredSignature, written := none, delegations := [] }
    else match accounts[1]? with
    | none => { result := .error .NotEnoughAccountKeys, written := none, delegations := [] }
    | some x_token_account =>
      match accounts[2]? with
      | none => { result := .error .NotEnoughAccountKeys, written := none, delegations := [] }
      | some token_to_receive_account =>
        if token_to_receive_account.owner ≠ sys.spl_token_id then
          { result := .error .IncorrectProgramId, written := none, delegations := [] }
        else match accounts[3]? with
        | none => { result := .error .NotEnoughAccountKeys, written := none, delegations := [] }
        | some escrow_account =>
          match accounts[4]? with
          | none => { result := .error .NotEnoughAccountKeys, written := none, delegations := [] }
          | some _rent_sysvar_account =>
            if !sys.rent_is_exempt escrow_account.lamports escrow_account.data.length then
              { result := .error EscrowError.NotRentExcept.toProgramError,
                written := none, delegations := [] }
            else match Escrow.unpack_unchecked escrow_account.data with
            | .error e => { result := .error e, written := none, delegations := [] }
            | .ok escrow_info0 =>
              if escrow_info0.is_initialized then
                { result := .error .AccountAlreadyInitialized,
                  written := none, delegations := [] }
              else
                match Escrow.pack
                  { is_initialized := true
                    initializer_pubkey := initializer.key
                    x_token_account_pubkey := x_token_account.key
                    initializer_token_to_receive_account_pubkey := token_to_receive_account.key
                    expected_amount := amount } escrow_account.data with
                | .error e => { result := .error e, written := none, delegations := [] }
                | .ok newData =>
                  match accounts[5]? with
                  | none => { result := .error .NotEnoughAccountKeys,
                              written := some newData, delegations := [] }
                  | some token_program =>
                    match set_authority sys.spl_token_id token_program.key
                        x_token_account.key
                        (some (sys.find_program_address [ESCROW_SEED] program_id).1)
                        .AccountOwner initializer.key [initializer.key] with
                    | .error e => { result := .error e,
                                    written := some newData, delegations := [] }
                    | .ok owner_change_ix =>
                      match sys.invoke_result with
                      | some e => { result := .error e, written := some newData,
                                    delegations := [owner_change_ix] }
                      | none => { result := .ok (), written := some newData,
                                  delegations := [owner_change_ix] }

/-- Data of the escrow account (account (3)) before the invocation. -/
def originalEscrowData (accounts : List AccountInfo) : List Nat :=
  match accounts[3]? with
  | some escrow_account => escrow_account.data
  | none => []

/-- Escrow-account bytes that are durably visible after the invocation.  The
hosting runtime commits all writes of a request only when the whole request
succeeds; a failed request leaves every account as it was (the transactional
semantics the handler relies on for atomicity, spec section 5). -/
def persistedEscrowData (sys : Sys) (accounts : List AccountInfo)
    (amount : Nat) (program_id : List Nat) : List Nat :=
  match Processor.process_init_escrow sys accounts amount program_id with
  | { result := .ok _, written := w, delegations := _ } =>
    w.getD (originalEscrowData accounts)
  | _ => originalEscrowData accounts

/-- A concrete 32-byte identity for the token program (custody service). -/
def splId : List Nat := List.replicate 32 200

/-- A concrete 32-byte identity for the escrow program itself. -/
def progId : List Nat := List.replicate 32 201

/-- A concrete 32-byte program-derived address returned by the derivation. -/
def pdaKey : List Nat := List.replicate 32 202

/-- A concrete environment on which every external collaborator cooperates. -/
def sysOk : Sys :=
  { spl_token_id := splId
    rent_is_exempt := fun _ _ => true
    find_program_address := fun _ _ => (pdaKey, 255)
    invoke_result := none }

/-- Helper building a concrete account whose key is 32 copies of `tag`. -/
def mkAccount (tag : Nat) (signer : Bool) (own : List Nat) (lam : Nat)
    (d : List Nat) : AccountInfo :=
  { key := List.replicate 32 tag, is_signer := signer, owner := own,
    lamports := lam, data := d }

/-- A fresh, uninitialized 105-byte escrow record. -/
def uninitData : List Nat := List.replicate 105 0

/-- A concrete happy-path account list: signer initializer, x-token account,
token-to-receive account owned by the token program, rent-exempt escrow
account with an uninitialized record, rent sysvar, and the token program. -/
def accsOk : List AccountInfo :=
  [ mkAccount 1 true progId 0 [],
    mkAccount 2 false splId 0 [],
    mkAccount 3 false splId 0 [],
    mkAccount 4 false progId 100 uninitData,
    mkAccount 5 false progId 0 [],
    { key := splId, is_signer := false, owner := progId, lamports := 0, data := [] } ]

/-- The little-endian encoding of a u64 always has 8 bytes. -/
@[simp] theorem u64_to_le_bytes_length (n : Nat) : (u64_to_le_bytes n).length = 8 := rfl

/-- Reading back the little-endian bytes of a u64 value recovers the value. -/
theorem u64_le_roundtrip (n : Nat) (h : n < 2 ^ 64) :
    u64_from_le_bytes (u64_to_le_bytes n) = n := by
  simp only [u64_from_le_bytes, u64_to_le_bytes, List.foldr]
  norm_num at h ⊢
  omega

/-- A valid in-memory record encodes to exactly 105 bytes. -/
theorem packBytes_length (e : Escrow)
    (h1 : e.initializer_pubkey.length = 32)
    (h2 : e.x_token_account_pubkey.length = 32)
    (h3 : e.initializer_token_to_receive_account_pubkey.length = 32) :
    e.packBytes.length = 105 := by
  simp [Escrow.packBytes, h1, h2, h3]

/-- Decoding the encoding of a valid record recovers the record field for field. -/
theorem escrow_pack_unpack (e : Escrow)
    (h1 : e.initializer_pubkey.length = 32)
    (h2 : e.x_token_account_pubkey.length = 32)
    (h3 : e.initializer_token_to_receive_account_pubkey.length = 32)
    (h4 : e.expected_amount < 2 ^ 64) :
    Escrow.unpack_from_slice e.packBytes = .ok e := by
  obtain ⟨b, A, B, C, amt⟩ := e
  simp only at h1 h2 h3 h4
  cases b <;>
    simp [Escrow.unpack_from_slice, Escrow.packBytes, Escrow.decodeFields,
      List.take_append_eq_append_take, List.drop_append_eq_append_drop,
      List.take_of_length_le, List.drop_eq_nil_of_le, h1, h2, h3,
      u64_le_roundtrip _ h4]

/-- A concrete valid record used to instantiate the codec theorems. -/
def recA : Escrow :=
  { is_initialized := true
    initializer_pubkey := List.replicate 32 1
    x_token_account_pubkey := List.replicate 32 2
    initializer_token_to_receive_account_pubkey := List.replicate 32 3
    expected_amount := 1000000 }

/-- C6: for every in-memory SwapRecord whose fields are valid (keys of 32
bytes, amount within u64, boolean flag), encoding via the state codec yields a
105-byte buffer, and decoding that buffer yields the record field for field. -/
theorem c6_roundtrip (e : Escrow)
    (h1 : e.initializer_pubkey.length = 32)
    (h2 : e.x_token_account_pubkey.length = 32)
    (h3 : e.initializer_token_to_receive_account_pubkey.length = 32)
    (h4 : e.expected_amount < 2 ^ 64) :
    Escrow.unpack_from_slice e.packBytes = .ok e ∧ e.packBytes.length = 105 :=
  ⟨escrow_pack_unpack e h1 h2 h3 h4, packBytes_length e h1 h2 h3⟩

/-- Witness for C6 at a concrete valid record. -/
theorem c6_roundtrip_witness :
    Escrow.unpack_from_slice recA.packBytes = .ok recA ∧
      recA.packBytes.length = 105 :=
  c6_roundtrip recA (by decide) (by decide) (by decide) (by norm_num [recA])

/-- C8: on a 105-byte buffer, a first byte other than 0 or 1 makes the state
decoder fail with the corrupt-state error, a first byte of 0 decodes to an
uninitialized record, and a first byte of 1 decodes to an initialized record. -/
theorem c8_discriminant (b : Nat) (rest : List Nat) (hlen : rest.length = 104) :
    (b < 256 → 2 ≤ b →
      Escrow.unpack_from_slice (b :: rest) = .error ProgramError.InvalidAccountData) ∧
    Escrow.unpack_from_slice (0 :: rest) = .ok (Escrow.decodeFields (0 :: rest) false) ∧
    (Escrow.decodeFields (0 :: rest) false).is_initialized = false ∧
    Escrow.unpack_from_slice (1 :: rest) = .ok (Escrow.decodeFields (1 :: rest) true) ∧
    (Escrow.decodeFields (1 :: rest) true).is_initialized = true := by
  refine ⟨fun hb h2 => ?_, ?_, rfl, ?_, rfl⟩
  · have h0 : ¬ b = 0 := by omega
    have h1 : ¬ b = 1 := by omega
    simp [Escrow.unpack_from_slice, h0, h1]
  · simp [Escrow.unpack_from_slice]
  · simp [Escrow.unpack_from_slice]

/-- Witness for C8 at the concrete invalid byte 77 and at 0 and 1. -/
theorem c8_discriminant_witness :
    Escrow.unpack_from_slice (77 :: List.replicate 104 0) =
        .error ProgramError.InvalidAccountData ∧
      Escrow.unpack_from_slice (0 :: List.replicate 104 0) =
        .ok (Escrow.decodeFields (0 :: List.replicate 104 0) false) ∧
      Escrow.unpack_from_slice (1 :: List.replicate 104 0) =
        .ok (Escrow.decodeFields (1 :: List.replicate 104 0) true) :=
  ⟨(c8_discriminant 77 (List.replicate 104 0) (by decide)).1 (by decide) (by decide),
   (c8_discriminant 0 (List.replicate 104 0) (by decide)).2.1,
   (c8_discriminant 1 (List.replicate 104 0) (by decide)).2.2.2.1⟩

/-- C7: decoding tag byte 0 followed by the 8 little-endian bytes of `n` and
any suffix yields the initialize command with amount `n`; the empty buffer, any
non-zero tag, and tag 0 with fewer than 8 remaining bytes all fail with the
invalid-instruction error. -/
theorem c7_command_decode :
    (∀ n suffix, n < 2 ^ 64 →
      EscrowInstruction.unpack (0 :: (u64_to_le_bytes n ++ suffix)) =
        .ok (.InitEscrow n)) ∧
    EscrowInstruction.unpack [] = .error EscrowError.InvalidInstruction.toProgramError ∧
    (∀ k rest, k ≠ 0 →
      EscrowInstruction.unpack (k :: rest) =
        .error EscrowError.InvalidInstruction.toProgramError) ∧
    (∀ rest, rest.length < 8 →
      EscrowInstruction.unpack (0 :: rest) =
        .error EscrowError.InvalidInstruction.toProgramError) := by
  refine ⟨fun n suffix hn => ?_, rfl, fun k rest hk => ?_, fun rest hr => ?_⟩
  · have hle : 8 ≤ (u64_to_le_bytes n ++ suffix).length := by
      simp
    simp [EscrowInstruction.unpack, EscrowInstruction.unpack_amount, hle,
      List.take_append_eq_append_take, List.take_of_length_le,
      u64_le_roundtrip _ hn]
  · simp [EscrowInstruction.unpack, hk]
  · have hnle : ¬ 8 ≤ rest.length := by omega
    simp [EscrowInstruction.unpack, EscrowInstruction.unpack_amount, hnle]

/-- Witness for C7 at amount 1000000 with a 2-byte suffix, bad tag 5, and a
3-byte truncated buffer. -/
theorem c7_command_decode_witness :
    EscrowInstruction.unpack (0 :: (u64_to_le_bytes 1000000 ++ [7, 7])) =
        .ok (.InitEscrow 1000000) ∧
      EscrowInstruction.unpack [5] =
        .error EscrowError.InvalidInstruction.toProgramError ∧
      EscrowInstruction.unpack [0, 1] =
        .error EscrowError.InvalidInstruction.toProgramError :=
  ⟨c7_command_decode.1 1000000 [7, 7] (by norm_num),
   c7_command_decode.2.2.1 5 [] (by decide),
   c7_command_decode.2.2.2 [1] (by decide)⟩

/-- C10: writing a valid record into a destination of at least 105 bytes
replaces exactly the first 105 bytes — discriminant at offset 0, keys at
offsets 1, 33 and 65, amount at offset 97 — preserves the length, and leaves
every byte at offset 105 or beyond unchanged. -/
theorem c10_frame (e : Escrow) (dst : List Nat)
    (h1 : e.initializer_pubkey.length = 32)
    (h2 : e.x_token_account_pubkey.length = 32)
    (h3 : e.initializer_token_to_receive_account_pubkey.length = 32)
    (hdst : 105 ≤ dst.length) :
    (e.pack_into_slice dst).length = dst.length ∧
    (e.pack_into_slice dst).take 105 = e.packBytes ∧
    (e.pack_into_slice dst).take 1 = [if e.is_initialized then 1 else 0] ∧
    ((e.pack_into_slice dst).drop 1).take 32 = e.initializer_pubkey ∧
    ((e.pack_into_slice dst).drop 33).take 32 = e.x_token_account_pubkey ∧
    ((e.pack_into_slice dst).drop 65).take 32 =
      e.initializer_token_to_receive_account_pubkey ∧
    ((e.pack_into_slice dst).drop 97).take 8 = u64_to_le_bytes e.expected_amount ∧
    (e.pack_into_slice dst).drop 105 = dst.drop 105 := by
  have hlen : e.packBytes.length = 105 := packBytes_length e h1 h2 h3
  obtain ⟨b, A, B, C, amt⟩ := e
  simp only at h1 h2 h3
  refine ⟨?_, ?_, ?_, ?_, ?_, ?_, ?_, ?_⟩ <;>
    cases b <;>
      simp_all [Escrow.pack_into_slice, Escrow.packBytes, Escrow.LEN,
        List.take_append_eq_append_take, List.drop_append_eq_append_drop,
        List.take_of_length_le, List.drop_eq_nil_of_le] <;> omega

/-- C1 counterexample context: identical to the happy path except that the
x-token account (account (1)) is owned by `progId`, not by the token program;
the token-to-receive account (account (2)) is owned by the token program. -/
def accsC1 : List AccountInfo :=
  [ mkAccount 1 true progId 0 [],
    mkAccount 2 false progId 0 [],
    mkAccount 3 false splId 0 [],
    mkAccount 4 false progId 100 uninitData,
    mkAccount 5 false progId 0 [],
    { key := splId, is_signer := false, owner := progId, lamports := 0, data := [] } ]

/-- C1: refuted at a concrete execution context — account (0) is a signer and
account (1)'s declared owner differs from the custody service's identity, yet
the handler succeeds instead of failing with the wrong-custody-service error:
the ownership check in the source is performed on account (2), not account (1). -/
theorem c1_counterexample :
    accsC1[1]?.map AccountInfo.owner = some progId ∧
      progId ≠ sysOk.spl_token_id ∧
      accsC1[0]?.map AccountInfo.is_signer = some true ∧
      (Processor.process_init_escrow sysOk accsC1 1000000 progId).result ≠
        .error ProgramError.IncorrectProgramId ∧
      (Processor.process_init_escrow sysOk accsC1 1000000 progId).result =
        .ok () := by decide

/-- C1 (amended): the second precondition check — after the signer check and
before the exemption check — is that account (2)'s (the token-to-receive
account's) declared owner equals the custody service's identity; whenever
account (0) is a signer and account (2)'s owner differs, the handler fails with
the incorrect-program-id error.  Account (1)'s owner is not checked. -/
theorem c1_amended_ownership (sys : Sys) (accounts : List AccountInfo)
    (amount : Nat) (pid : List Nat) (i x t : AccountInfo)
    (h0 : accounts[0]? = some i) (hs : i.is_signer = true)
    (h1 : accounts[1]? = some x)
    (h2 : accounts[2]? = some t) (ho : t.owner ≠ sys.spl_token_id) :
    (Processor.process_init_escrow sys accounts amount pid).result =
      .error ProgramError.IncorrectProgramId := by
  unfold Processor.process_init_escrow
  rw [h0, h1, h2]
  simp [hs, ho]

/-- Context whose account (2) has the wrong owner, for the C1 witness. -/
def accsBadRecv : List AccountInfo :=
  [ mkAccount 1 true progId 0 [],
    mkAccount 2 false splId 0 [],
    mkAccount 3 false progId 0 [],
    mkAccount 4 false progId 100 uninitData,
    mkAccount 5 false progId 0 [],
    { key := splId, is_signer := false, owner := progId, lamports := 0, data := [] } ]

/-- Witness for the amended C1 at a concrete context. -/
theorem c1_amended_ownership_witness :
    (Processor.process_init_escrow sysOk accsBadRecv 5 progId).result =
      .error ProgramError.IncorrectProgramId :=
  c1_amended_ownership sysOk accsBadRecv 5 progId
    (mkAccount 1 true progId 0 []) (mkAccount 2 false splId 0 [])
    (mkAccount 3 false progId 0 []) rfl rfl rfl rfl (by decide)

/-- Witness for C10 at a concrete record and a 110-byte destination. -/
theorem c10_frame_witness :
    (recA.pack_into_slice (List.replicate 110 9)).length = 110 ∧
      (recA.pack_into_slice (List.replicate 110 9)).take 105 = recA.packBytes ∧
      (recA.pack_into_slice (List.replicate 110 9)).take 1 =
        [if recA.is_initialized then 1 else 0] ∧
      ((recA.pack_into_slice (List.replicate 110 9)).drop 1).take 32 =
        recA.initializer_pubkey ∧
      ((recA.pack_into_slice (List.replicate 110 9)).drop 33).take 32 =
        recA.x_token_account_pubkey ∧
      ((recA.pack_into_slice (List.replicate 110 9)).drop 65).take 32 =
        recA.initializer_token_to_receive_account_pubkey ∧
      ((recA.pack_into_slice (List.replicate 110 9)).drop 97).take 8 =
        u64_to_le_bytes recA.expected_amount ∧
      (recA.pack_into_slice (List.replicate 110 9)).drop 105 =
        (List.replicate 110 9).drop 105 := by
  have h := c10_frame recA (List.replicate 110 9) (by decide) (by decide)
    (by decide) (by decide)
  simpa using h

/-- C2: when account (0) is a signer, the ownership check passes, the escrow
account is rent exempt and its 105 bytes decode to an uninitialized record,
the handler overwrites the escrow account's storage with the 105-byte encoding
of the record holding the initialized flag, account (0)'s key, account (1)'s
key, account (2)'s key and the command's amount. -/
theorem c2_success_write (sys : Sys) (accounts : List AccountInfo)
    (amount : Nat) (pid : List Nat) (i x t e r : AccountInfo) (rec : Escrow)
    (h0 : accounts[0]? = some i) (hs : i.is_signer = true)
    (h1 : accounts[1]? = some x)
    (h2 : accounts[2]? = some t) (ho : t.owner = sys.spl_token_id)
    (h3 : accounts[3]? = some e) (h4 : accounts[4]? = some r)
    (hrent : sys.rent_is_exempt e.lamports e.data.length = true)
    (hlen : e.data.length = 105)
    (hdec : Escrow.unpack_from_slice e.data = .ok rec)
    (hini : rec.is_initialized = false) :
    (Processor.process_init_escrow sys accounts amount pid).written =
      some (Escrow.packBytes
        { is_initialized := true
          initializer_pubkey := i.key
          x_token_account_pubkey := x.key
          initializer_token_to_receive_account_pubkey := t.key
          expected_amount := amount }) := by
  have hdrop : e.data.drop 105 = [] := List.drop_eq_nil_of_le (by omega)
  rw [hlen] at hrent
  unfold Processor.process_init_escrow
  rw [h0, h1, h2, h3, h4]
  simp only [hs, ho, Bool.not_true, Bool.false_eq_true, if_false, ne_eq,
    not_true_eq_false, hrent, ite_false, ite_true,
    Escrow.unpack_unchecked, Escrow.LEN, hlen, if_pos rfl, hdec, hini,
    Escrow.pack, Escrow.pack_into_slice, hdrop, List.append_nil]
  cases accounts[5]? with
  | none => simp [hrent]
  | some tp =>
    by_cases htp : tp.key = sys.spl_token_id <;>
      simp only [set_authority, htp, ite_true, ite_false, if_pos, if_neg] <;>
      cases sys.invoke_result <;> simp [hrent]

/-- Witness for C2 at the concrete happy-path context. -/
theorem c2_success_write_witness :
    (Processor.process_init_escrow sysOk accsOk 1000000 progId).written =
      some (Escrow.packBytes
        { is_initialized := true
          initializer_pubkey := List.replicate 32 1
          x_token_account_pubkey := List.replicate 32 2
          initializer_token_to_receive_account_pubkey := List.replicate 32 3
          expected_amount := 1000000 }) :=
  c2_success_write sysOk accsOk 1000000 progId
    (mkAccount 1 true progId 0 []) (mkAccount 2 false splId 0 [])
    (mkAccount 3 false splId 0 []) (mkAccount 4 false progId 100 uninitData)
    (mkAccount 5 false progId 0 [])
    (Escrow.decodeFields uninitData false)
    rfl rfl rfl rfl rfl rfl rfl rfl (by decide) (by decide) rfl

/-- C3: on the success path the handler issues exactly one authority-delegation
request — change the controlling authority of account (1) from account (0) to
the address derived from the program's identity and the constant seed, with
account (0) as the sole signer — and on every path at most one delegation
request is ever issued. -/
theorem c3_single_delegation (sys : Sys) (accounts : List AccountInfo)
    (amount : Nat) (pid : List Nat) (i x t e r tp : AccountInfo) (rec : Escrow)
    (h0 : accounts[0]? = some i) (hs : i.is_signer = true)
    (h1 : accounts[1]? = some x)
    (h2 : accounts[2]? = some t) (ho : t.owner = sys.spl_token_id)
    (h3 : accounts[3]? = some e) (h4 : accounts[4]? = some r)
    (hrent : sys.rent_is_exempt e.lamports e.data.length = true)
    (hlen : e.data.length = 105)
    (hdec : Escrow.unpack_from_slice e.data = .ok rec)
    (hini : rec.is_initialized = false)
    (h5 : accounts[5]? = some tp) (htp : tp.key = sys.spl_token_id)
    (hinv : sys.invoke_result = none) :
    (Processor.process_init_escrow sys accounts amount pid).result = .ok () ∧
    (Processor.process_init_escrow sys accounts amount pid).delegations =
      [{ token_program_id := tp.key
         owned_pubkey := x.key
         new_authority_pubkey := some (sys.find_program_address [ESCROW_SEED] pid).1
         authority_type := .AccountOwner
         owner_pubkey := i.key
         signer_pubkeys := [i.key] }] ∧
    (∀ (sys2 : Sys) (accounts2 : List AccountInfo) (amount2 : Nat)
        (pid2 : List Nat),
      (Processor.process_init_escrow sys2 accounts2 amount2 pid2).delegations.length ≤ 1) := by
  have hdrop : e.data.drop 105 = [] := List.drop_eq_nil_of_le (by omega)
  rw [hlen] at hrent
  have H : Processor.process_init_escrow sys accounts amount pid =
      { result := .ok ()
        written := some (Escrow.packBytes
          { is_initialized := true
            initializer_pubkey := i.key
            x_token_account_pubkey := x.key
            initializer_token_to_receive_account_pubkey := t.key
            expected_amount := amount })
        delegations :=
          [{ token_program_id := tp.key
             owned_pubkey := x.key
             new_authority_pubkey := some (sys.find_program_address [ESCROW_SEED] pid).1
             authority_type := .AccountOwner
             owner_pubkey := i.key
             signer_pubkeys := [i.key] }] } := by
    unfold Processor.process_init_escrow
    rw [h0, h1, h2, h3, h4, h5]
    simp [hs, ho, hrent, Escrow.unpack_unchecked, Escrow.LEN, hlen, hdec, hini,
      Escrow.pack, Escrow.pack_into_slice, hdrop, set_authority, htp, hinv]
  refine ⟨by rw [H], by rw [H], ?_⟩
  intro sys2 accounts2 amount2 pid2
  unfold Processor.process_init_escrow
  repeat' split
  all_goals simp

/-- Witness for C3 at the concrete happy-path context. -/
theorem c3_single_delegation_witness :
    (Processor.process_init_escrow sysOk accsOk 1000000 progId).result = .ok () ∧
    (Processor.process_init_escrow sysOk accsOk 1000000 progId).delegations =
      [{ token_program_id := splId
         owned_pubkey := List.replicate 32 2
         new_authority_pubkey := some (sysOk.find_program_address [ESCROW_SEED] progId).1
         authority_type := .AccountOwner
         owner_pubkey := List.replicate 32 1
         signer_pubkeys := [List.replicate 32 1] }] ∧
    (∀ (sys2 : Sys) (accounts2 : List AccountInfo) (amount2 : Nat)
        (pid2 : List Nat),
      (Processor.process_init_escrow sys2 accounts2 amount2 pid2).delegations.length ≤ 1) :=
  c3_single_delegation sysOk accsOk 1000000 progId
    (mkAccount 1 true progId 0 []) (mkAccount 2 false splId 0 [])
    (mkAccount 3 false splId 0 []) (mkAccount 4 false progId 100 uninitData)
    (mkAccount 5 false progId 0 [])
    { key := splId, is_signer := false, owner := progId, lamports := 0, data := [] }
    (Escrow.decodeFields uninitData false)
    rfl rfl rfl rfl rfl rfl rfl rfl (by decide) (by decide) rfl rfl rfl rfl

/-- C9: in an execution context where account (0) is not a signer and the
escrow account also fails the exemption predicate, the handler reports the
missing-signature error and not the rent-exemption error: the signer check is
performed first. -/
theorem c9_precondition_order (sys : Sys) (accounts : List AccountInfo)
    (amount : Nat) (pid : List Nat) (i e : AccountInfo)
    (h0 : accounts[0]? = some i) (hs : i.is_signer = false)
    (h3 : accounts[3]? = some e)
    (hrent : sys.rent_is_exempt e.lamports e.data.length = false) :
    (Processor.process_init_escrow sys accounts amount pid).result =
      .error ProgramError.MissingRequiredSignature ∧
    (Processor.process_init_escrow sys accounts amount pid).result ≠
      .error EscrowError.NotRentExcept.toProgramError := by
  have H : (Processor.process_init_escrow sys accounts amount pid).result =
      .error ProgramError.MissingRequiredSignature := by
    unfold Processor.process_init_escrow
    rw [h0]
    simp [hs]
  exact ⟨H, by rw [H]; simp [EscrowError.toProgramError, EscrowError.toCode]⟩

/-- Environment whose exemption oracle rejects every account. -/
def sysNoRent : Sys :=
  { spl_token_id := splId
    rent_is_exempt := fun _ _ => false
    find_program_address := fun _ _ => (pdaKey, 255)
    invoke_result := none }

/-- Context like the happy path but whose initializer did not sign. -/
def accsNoSign : List AccountInfo :=
  [ mkAccount 1 false progId 0 [],
    mkAccount 2 false splId 0 [],
    mkAccount 3 false splId 0 [],
    mkAccount 4 false progId 100 uninitData,
    mkAccount 5 false progId 0 [],
    { key := splId, is_signer := false, owner := progId, lamports := 0, data := [] } ]

/-- Witness for C9: no signer and a non-exempt escrow account give the
missing-signature error. -/
theorem c9_precondition_order_witness :
    (Processor.process_init_escrow sysNoRent accsNoSign 5 progId).result =
      .error ProgramError.MissingRequiredSignature ∧
    (Processor.process_init_escrow sysNoRent accsNoSign 5 progId).result ≠
      .error EscrowError.NotRentExcept.toProgramError :=
  c9_precondition_order sysNoRent accsNoSign 5 progId
    (mkAccount 1 false progId 0 []) (mkAccount 4 false progId 100 uninitData)
    rfl rfl rfl rfl

/-- C4: each of the four precondition failures — missing signer, wrong
custody-service ownership, non-exempt escrow account, already-initialized
record — aborts the handler with its corresponding error before any byte of the
escrow account is written, so the stored bytes are unchanged; in particular the
second invocation against an initialized record fails with the
already-initialized error. -/
theorem c4_failure_frame (sys : Sys) (accounts : List AccountInfo)
    (amount : Nat) (pid : List Nat) :
    (∀ i, accounts[0]? = some i → i.is_signer = false →
      (Processor.process_init_escrow sys accounts amount pid).result =
        .error ProgramError.MissingRequiredSignature ∧
      (Processor.process_init_escrow sys accounts amount pid).written = none ∧
      persistedEscrowData sys accounts amount pid = originalEscrowData accounts) ∧
    (∀ i x t, accounts[0]? = some i → i.is_signer = true →
      accounts[1]? = some x → accounts[2]? = some t →
      t.owner ≠ sys.spl_token_id →
      (Processor.process_init_escrow sys accounts amount pid).result =
        .error ProgramError.IncorrectProgramId ∧
      (Processor.process_init_escrow sys accounts amount pid).written = none ∧
      persistedEscrowData sys accounts amount pid = originalEscrowData accounts) ∧
    (∀ i x t e r, accounts[0]? = some i → i.is_signer = true →
      accounts[1]? = some x → accounts[2]? = some t →
      t.owner = sys.spl_token_id → accounts[3]? = some e →
      accounts[4]? = some r →
      sys.rent_is_exempt e.lamports e.data.length = false →
      (Processor.process_init_escrow sys accounts amount pid).result =
        .error EscrowError.NotRentExcept.toProgramError ∧
      (Processor.process_init_escrow sys accounts amount pid).written = none ∧
      persistedEscrowData sys accounts amount pid = originalEscrowData accounts) ∧
    (∀ i x t e r rec, accounts[0]? = some i → i.is_signer = true →
      accounts[1]? = some x → accounts[2]? = some t →
      t.owner = sys.spl_token_id → accounts[3]? = some e →
      accounts[4]? = some r →
      sys.rent_is_exempt e.lamports e.data.length = true →
      Escrow.unpack_unchecked e.data = .ok rec → rec.is_initialized = true →
      (Processor.process_init_escrow sys accounts amount pid).result =
        .error ProgramError.AccountAlreadyInitialized ∧
      (Processor.process_init_escrow sys accounts amount pid).written = none ∧
      persistedEscrowData sys accounts amount pid = e.data) := by
  refine ⟨?_, ?_, ?_, ?_⟩
  · intro i h0 hs
    have H : Processor.process_init_escrow sys accounts amount pid =
        { result := .error ProgramError.MissingRequiredSignature,
          written := none, delegations := [] } := by
      unfold Processor.process_init_escrow
      rw [h0]
      simp [hs]
    refine ⟨by rw [H], by rw [H], ?_⟩
    unfold persistedEscrowData
    rw [H]
  · intro i x t h0 hs h1 h2 ho
    have H : Processor.process_init_escrow sys accounts amount pid =
        { result := .error ProgramError.IncorrectProgramId,
          written := none, delegations := [] } := by
      unfold Processor.process_init_escrow
      rw [h0, h1, h2]
      simp [hs, ho]
    refine ⟨by rw [H], by rw [H], ?_⟩
    unfold persistedEscrowData
    rw [H]
  · intro i x t e r h0 hs h1 h2 ho h3 h4 hrent
    have H : Processor.process_init_escrow sys accounts amount pid =
        { result := .error EscrowError.NotRentExcept.toProgramError,
          written := none, delegations := [] } := by
      unfold Processor.process_init_escrow
      rw [h0, h1, h2, h3, h4]
      simp [hs, ho, hrent]
    refine ⟨by rw [H], by rw [H], ?_⟩
    unfold persistedEscrowData
    rw [H]
  · intro i x t e r rec h0 hs h1 h2 ho h3 h4 hrent hdec hini
    have H : Processor.process_init_escrow sys accounts amount pid =
        { result := .error ProgramError.AccountAlreadyInitialized,
          written := none, delegations := [] } := by
      unfold Processor.process_init_escrow
      rw [h0, h1, h2, h3, h4]
      simp [hs, ho, hrent, hdec, hini]
    refine ⟨by rw [H], by rw [H], ?_⟩
    unfold persistedEscrowData
    rw [H]
    simp [originalEscrowData, h3]

/-- A 105-byte record already marked initialized. -/
def initData : List Nat := 1 :: List.replicate 104 0

/-- Context like the happy path but whose escrow record is already initialized. -/
def accsInit : List AccountInfo :=
  [ mkAccount 1 true progId 0 [],
    mkAccount 2 false splId 0 [],
    mkAccount 3 false splId 0 [],
    mkAccount 4 false progId 100 initData,
    mkAccount 5 false progId 0 [],
    { key := splId, is_signer := false, owner := progId, lamports := 0, data := [] } ]

/-- Witness for C4: a second invocation against an already-initialized record
fails with the already-initialized error, writes nothing, and the persisted
bytes are the original ones. -/
theorem c4_failure_frame_witness :
    (Processor.process_init_escrow sysOk accsInit 5 progId).result =
      .error ProgramError.AccountAlreadyInitialized ∧
    (Processor.process_init_escrow sysOk accsInit 5 progId).written = none ∧
    persistedEscrowData sysOk accsInit 5 progId = initData :=
  (c4_failure_frame sysOk accsInit 5 progId).2.2.2
    (mkAccount 1 true progId 0 []) (mkAccount 2 false splId 0 [])
    (mkAccount 3 false splId 0 []) (mkAccount 4 false progId 100 initData)
    (mkAccount 5 false progId 0 [])
    (Escrow.decodeFields initData true)
    rfl rfl rfl rfl rfl rfl rfl rfl (by decide) rfl

/-- C5: when every precondition passes but the delegation request fails, the
whole transition fails with the callee's error and the durably visible record
bytes are the original ones, which still decode to an uninitialized record. -/
theorem c5_delegation_failure (sys : Sys) (accounts : List AccountInfo)
    (amount : Nat) (pid : List Nat) (i x t e r tp : AccountInfo) (rec : Escrow)
    (err : ProgramError)
    (h0 : accounts[0]? = some i) (hs : i.is_signer = true)
    (h1 : accounts[1]? = some x)
    (h2 : accounts[2]? = some t) (ho : t.owner = sys.spl_token_id)
    (h3 : accounts[3]? = some e) (h4 : accounts[4]? = some r)
    (hrent : sys.rent_is_exempt e.lamports e.data.length = true)
    (hlen : e.data.length = 105)
    (hdec : Escrow.unpack_from_slice e.data = .ok rec)
    (hini : rec.is_initialized = false)
    (h5 : accounts[5]? = some tp) (htp : tp.key = sys.spl_token_id)
    (hinv : sys.invoke_result = some err) :
    (Processor.process_init_escrow sys accounts amount pid).result = .error err ∧
    persistedEscrowData sys accounts amount pid = e.data ∧
    Escrow.unpack_from_slice (persistedEscrowData sys accounts amount pid) =
      .ok rec ∧
    rec.is_initialized = false := by
  have hdrop : e.data.drop 105 = [] := List.drop_eq_nil_of_le (by omega)
  rw [hlen] at hrent
  have H : Processor.process_init_escrow sys accounts amount pid =
      { result := .error err
        written := some (Escrow.packBytes
          { is_initialized := true
            initializer_pubkey := i.key
            x_token_account_pubkey := x.key
            initializer_token_to_receive_account_pubkey := t.key
            expected_amount := amount })
        delegations :=
          [{ token_program_id := tp.key
             owned_pubkey := x.key
             new_authority_pubkey := some (sys.find_program_address [ESCROW_SEED] pid).1
             authority_type := .AccountOwner
             owner_pubkey := i.key
             signer_pubkeys := [i.key] }] } := by
    unfold Processor.process_init_escrow
    rw [h0, h1, h2, h3, h4, h5]
    simp [hs, ho, hrent, Escrow.unpack_unchecked, Escrow.LEN, hlen, hdec, hini,
      Escrow.pack, Escrow.pack_into_slice, hdrop, set_authority, htp, hinv]
  have Hp : persistedEscrowData sys accounts amount pid = e.data := by
    unfold persistedEscrowData
    rw [H]
    simp [originalEscrowData, h3]
  refine ⟨by rw [H], Hp, ?_, hini⟩
  rw [Hp]
  exact hdec

/-- Environment in which the cross-program invocation fails. -/
def sysInvFail : Sys :=
  { spl_token_id := splId
    rent_is_exempt := fun _ _ => true
    find_program_address := fun _ _ => (pdaKey, 255)
    invoke_result := some (.Custom 77) }

/-- Witness for C5: with a failing delegation the handler fails and the
persisted record is the original uninitialized one. -/
theorem c5_delegation_failure_witness :
    (Processor.process_init_escrow sysInvFail accsOk 5 progId).result =
      .error (ProgramError.Custom 77) ∧
    persistedEscrowData sysInvFail accsOk 5 progId = uninitData ∧
    Escrow.unpack_from_slice (persistedEscrowData sysInvFail accsOk 5 progId) =
      .ok (Escrow.decodeFields uninitData false) ∧
    (Escrow.decodeFields uninitData false).is_initialized = false :=
  c5_delegation_failure sysInvFail accsOk 5 progId
    (mkAccount 1 true progId 0 []) (mkAccount 2 false splId 0 [])
    (mkAccount 3 false splId 0 []) (mkAccount 4 false progId 100 uninitData)
    (mkAccount 5 false progId 0 [])
    { key := splId, is_signer := false, owner := progId, lamports := 0, data := [] }
    (Escrow.decodeFields uninitData false) (.Custom 77)
    rfl rfl rfl rfl rfl rfl rfl rfl (by decide) (by decide) rfl rfl rfl rfl
